import Mathlib

/-!
Verification of the audio-compare stream-similarity engine.

The definitions below are a shallow embedding of the Python sources
(`compare.py`, `main.py`): fingerprints are lists of characters, hash
sequences are lists of integers, similarity scores are rationals, and the
per-cycle aggregation state is an explicit list.  Stateful or I/O-bound
parts (ffmpeg invocations, the capture loop) are modelled as explicit data
flow on buffers represented as lists.
-/

set_option maxHeartbeats 1000000

namespace AudioCompare

/-- Number of positions at which two character lists agree, i.e. the Python
generator expression `sum(1 for a, b in zip(c1, c2) if a == b)` used in
`_check_fingerprint_overlap` and `_fingerprint_char_similarity`. -/
def countEq (c1 c2 : List Char) : ℕ :=
  ((c1.zip c2).filter (fun p => decide (p.1 = p.2))).length

/-- Python slice `l[lo:hi]` for `0 ≤ lo ≤ hi` (out-of-range bounds clamp). -/
def pySlice {α : Type} (lo hi : ℕ) (l : List α) : List α :=
  (l.drop lo).take (hi - lo)

/-- Python `s.ljust(n, c)`: pad `s` on the right with `c` up to length `n`. -/
def pyLjust (s : List Char) (n : ℕ) (c : Char) : List Char :=
  s ++ List.replicate (n - s.length) c

/-- `_fingerprint_char_similarity` (compare.py lines 351-361): pad both
fingerprints to the longer length with the character `0` and return the
fraction of equal character positions; `0.0` when both are empty. -/
def fingerprintCharSimilarity (fp1 fp2 : List Char) : ℚ :=
  let max_len := max fp1.length fp2.length
  if max_len = 0 then 0
  else (countEq (pyLjust fp1 max_len '0') (pyLjust fp2 max_len '0') : ℚ) / (max_len : ℚ)

/-- Python `range(0, stop, step)` for `step > 0`, with a possibly negative
`stop` (then the range is empty). -/
def pyRange (stop : ℤ) (step : ℕ) : List ℕ :=
  (List.range ((stop.toNat + step - 1) / step)).map (· * step)

/-- `_check_fingerprint_overlap` (compare.py lines 323-348): chunk size is an
eighth of the longer fingerprint (integer division); below 20 the strategy is
inapplicable and yields `0.0`.  Every chunk of `fp1` (stride `chunk_size // 2`)
is compared against every chunk of `fp2`; a verbatim match adds 1, an
equal-length chunk with more than 80% positional agreement adds that
fraction.  The result is `min(matches / total_checks, 1.0)` where
`total_checks` counts outer iterations. -/
def checkFingerprintOverlap (fp1 fp2 : List Char) : ℚ :=
  let chunk_size := max fp1.length fp2.length / 8
  if chunk_size < 20 then 0
  else
    let outer := pyRange ((fp1.length : ℤ) - (chunk_size : ℤ)) (chunk_size / 2)
    let inner := pyRange ((fp2.length : ℤ) - (chunk_size : ℤ)) (chunk_size / 2)
    let nMatches : ℚ :=
      (outer.map (fun i =>
        let chunk1 := pySlice i (i + chunk_size) fp1
        (inner.map (fun j =>
          let chunk2 := pySlice j (j + chunk_size) fp2
          if chunk1 = chunk2 then (1 : ℚ)
          else if chunk1.length = chunk2.length then
            let sim : ℚ := (countEq chunk1 chunk2 : ℚ) / (chunk1.length : ℚ)
            if 4/5 < sim then sim else 0
          else 0)).sum)).sum
    let total_checks := outer.length
    if total_checks = 0 then 0
    else min (nMatches / (total_checks : ℚ)) 1

/-- Value of a nonempty all-digit character list; `none` otherwise. -/
def digitsVal? (s : List Char) : Option ℕ :=
  if s.isEmpty then none
  else s.foldl (fun acc c =>
    acc.bind (fun n => if c.isDigit then some (n * 10 + (c.toNat - 48)) else none)) (some 0)

/-- Python `int(s)` on a fingerprint piece: an optional sign followed by one
or more decimal digits (fingerprint text holds only digits and commas, so
Python's additional tolerance for surrounding whitespace and underscores is
not exercised and not modelled).  `none` models the `ValueError`. -/
def pyInt? (s : List Char) : Option ℤ :=
  match s with
  | '-' :: rest => (digitsVal? rest).map (fun n => -(n : ℤ))
  | '+' :: rest => (digitsVal? rest).map (fun n => (n : ℤ))
  | _ => (digitsVal? s).map (fun n => (n : ℤ))

/-- Python `s.split(',')`: always returns one more piece than the number of
commas; the empty string yields `[[]]`. -/
def splitOnComma : List Char → List (List Char)
  | [] => [[]]
  | c :: rest =>
    match splitOnComma rest with
    | [] => [[c]]
    | h :: t => if c = ',' then [] :: h :: t else (c :: h) :: t

/-- `[int(x) for x in fp.split(',')]`: `none` when any piece fails to parse
(the list comprehension raises and the enclosing `try` falls through). -/
def parseFingerprint (fp : List Char) : Option (List ℤ) :=
  (splitOnComma fp).mapM pyInt?

/-- Binary population count with explicit fuel (structural recursion). -/
def popCountAux : ℕ → ℕ → ℕ
  | 0, _ => 0
  | fuel + 1, n => if n = 0 then 0 else n % 2 + popCountAux fuel (n / 2)

/-- Number of 1 bits of a natural number. -/
def natPopCount (n : ℕ) : ℕ := popCountAux n n

/-- Python `bin(x ^ y).count('1')`: for a negative XOR result `bin` renders a
minus sign and the binary digits of the absolute value, so the count is the
population count of the absolute value of the XOR. -/
def pyBitDiff (x y : ℤ) : ℕ := natPopCount (Int.natAbs (Int.xor x y))

/-- The slice pair built for one candidate offset of the sliding-window
Hamming comparison (compare.py lines 291-297): for `offset < 0`,
`a1 = arr1[-offset : window_size - offset]` (or `arr1[-offset:]` when that
upper bound exceeds `len(arr1)`) and `a2 = arr2[:len(a1)]`; symmetrically for
`offset ≥ 0`. -/
def hammingWindowPair (arr1 arr2 : List ℤ) (offset : ℤ) : List ℤ × List ℤ :=
  let window_size := min arr1.length arr2.length
  if offset < 0 then
    let p := (-offset).toNat
    let a1 :=
      if (window_size : ℤ) - offset ≤ (arr1.length : ℤ) then pySlice p (window_size + p) arr1
      else arr1.drop p
    (a1, arr2.take a1.length)
  else
    let p := offset.toNat
    let a2 :=
      if (window_size : ℤ) + offset ≤ (arr2.length : ℤ) then pySlice p (window_size + p) arr2
      else arr2.drop p
    (arr1.take a2.length, a2)

/-- Loop body of the sliding-window comparison (compare.py lines 291-303):
when both slices are nonempty, count aligned positions whose integers differ
in at most 16 bits, divide by the slice length, and keep the running
maximum; empty slices leave the running maximum unchanged. -/
def hammingStep (arr1 arr2 : List ℤ) (max_sim : ℚ) (offset : ℤ) : ℚ :=
  let pr := hammingWindowPair arr1 arr2 offset
  if 0 < pr.1.length ∧ 0 < pr.2.length then
    let nMatches := ((pr.1.zip pr.2).filter (fun xy => decide (pyBitDiff xy.1 xy.2 ≤ 16))).length
    max max_sim ((nMatches : ℚ) / (pr.1.length : ℚ))
  else max_sim

/-- Sliding-window Hamming similarity (compare.py lines 288-303): the
maximum window similarity over offsets −10..10, starting from 0. -/
def slidingHammingMax (arr1 arr2 : List ℤ) : ℚ :=
  ((List.range 21).map (fun k => (k : ℤ) - 10)).foldl (hammingStep arr1 arr2) 0

/-- Outcome of the integer-array branch of `_compare_fingerprints_smart`
(compare.py lines 283-309): `some max_sim` when both fingerprints parse as
comma-separated integers and the sliding-window Hamming similarity exceeds
0.5 (then the function returns it); `none` when parsing raises or the
similarity is not above the acceptance threshold (then the code falls
through to the overlap strategy). -/
def hammingResult? (fp1 fp2 : List Char) : Option ℚ :=
  match parseFingerprint fp1, parseFingerprint fp2 with
  | some arr1, some arr2 =>
    let max_sim := slidingHammingMax arr1 arr2
    if 1/2 < max_sim then some max_sim else none
  | _, _ => none

/-- `_compare_fingerprints_smart` (compare.py lines 270-320): guard returning
`0.0` for missing or short (< 10 characters) fingerprints; `1.0` on byte
equality; otherwise the accepted sliding-window Hamming score, else the chunk
overlap score when above 0.3, else the character-level similarity.  (The
`fpcalc_path` parameter of the Python function is never used by it and is
omitted.) -/
def compareFingerprintsSmart (fp1 fp2 : List Char) : ℚ :=
  if fp1 = [] ∨ fp2 = [] ∨ fp1.length < 10 ∨ fp2.length < 10 then 0
  else if fp1 = fp2 then 1
  else
    match hammingResult? fp1 fp2 with
    | some max_sim => max_sim
    | none =>
      let overlap_score := checkFingerprintOverlap fp1 fp2
      if 3/10 < overlap_score then overlap_score
      else fingerprintCharSimilarity fp1 fp2

/-! ### Aggregation (main.py) -/

/-- `SAME_THRESHOLD = 0.75` (main.py line 25). -/
def SAME_THRESHOLD : ℚ := 3/4

/-- `SIMILAR_THRESHOLD = 0.45` (main.py line 26). -/
def SIMILAR_THRESHOLD : ℚ := 9/20

/-- `NUM_CHUNKS_AGG = 5` (main.py line 23). -/
def NUM_CHUNKS_AGG : ℕ := 5

/-- The three aggregate verdicts printed by `run` (main.py lines 150-155). -/
inductive Verdict where
  | SAME
  | SIMILAR
  | DIFFERENT
deriving DecidableEq, Repr

/-- Result of executing a fragment of Python code: a value, or an uncaught
`TypeError`. -/
inductive PyResult (α : Type) where
  | ok (val : α)
  | typeError
deriving DecidableEq, Repr

/-- A Python value as it flows through the similarity bookkeeping of `run`
(main.py): the thresholds are floats, but `compare_audio` returns the
3-tuple `(similarity, offset_seconds, offset_confidence)` at every return
site (compare.py lines 226, 230, 235 and 239), and `run` never unpacks it. -/
inductive PyVal where
  | num (q : ℚ)
  | tup (t : ℚ × ℚ × ℚ)
deriving DecidableEq, Repr

/-- Python `format(v, ".3f")` as invoked by the f-string `{score:.3f}` at
main.py line 131: a float formats, but a tuple falls back to
`object.__format__`, which raises `TypeError` on a non-empty format
specification. -/
def pyFormatFixed3 : PyVal → PyResult Unit
  | PyVal.num _ => PyResult.ok ()
  | PyVal.tup _ => PyResult.typeError

/-- Python `v >= t` for a stored entry against a float threshold (main.py
lines 132 and 143): numbers compare; comparing a tuple with a float raises
`TypeError`. -/
def pyGeFloat : PyVal → ℚ → PyResult Bool
  | PyVal.num q, t => PyResult.ok (decide (t ≤ q))
  | PyVal.tup _, _ => PyResult.typeError

/-- Python `sum(l)` (main.py line 142): starts from `0` and adds the
entries; adding a tuple to a number raises `TypeError`. -/
def pySum : List PyVal → PyResult ℚ
  | [] => PyResult.ok 0
  | PyVal.num q :: rest =>
    match pySum rest with
    | PyResult.ok s => PyResult.ok (q + s)
    | PyResult.typeError => PyResult.typeError
  | PyVal.tup _ :: _ => PyResult.typeError

/-- Python `sum(1 for s in last if s >= SAME_THRESHOLD)` (main.py line
143): raises `TypeError` as soon as a tuple entry is compared with the
float threshold. -/
def pyCountHigh : List PyVal → PyResult ℕ
  | [] => PyResult.ok 0
  | s :: rest =>
    match pyGeFloat s SAME_THRESHOLD, pyCountHigh rest with
    | PyResult.ok b, PyResult.ok n => PyResult.ok (if b then n + 1 else n)
    | _, _ => PyResult.typeError

/-- Python `l[-n:]` for `n > 0`: the last `n` elements (the whole list when
it is shorter than `n`). -/
def pyLastN {α : Type} (n : ℕ) (l : List α) : List α := l.drop (l.length - n)

/-- The aggregation block of `run` (main.py lines 140-155) on the entries
actually stored: executed only once at least `NUM_CHUNKS_AGG` entries exist
(`none` = block skipped); `avg` comes from `sum(last) / len(last)` and
`high` from the threshold count, and with tuple entries both raise
`TypeError`; on numeric entries the verdict is SAME when
`high >= NUM_CHUNKS_AGG - 1`, else SIMILAR when the average reaches
`SIMILAR_THRESHOLD`, else DIFFERENT. -/
def aggregateBlock (similarities : List PyVal) : Option (PyResult Verdict) :=
  if NUM_CHUNKS_AGG ≤ similarities.length then
    let last := pyLastN NUM_CHUNKS_AGG similarities
    some (match pySum last, pyCountHigh last with
      | PyResult.ok s, PyResult.ok high =>
        if NUM_CHUNKS_AGG - 1 ≤ high then PyResult.ok Verdict.SAME
        else if SIMILAR_THRESHOLD ≤ s / (last.length : ℚ) then PyResult.ok Verdict.SIMILAR
        else PyResult.ok Verdict.DIFFERENT
      | _, _ => PyResult.typeError)
  else none

/-- One successful comparison cycle of `run` (main.py lines 97-137) from
the comparison to the chunk-result display: line 100 binds
`compare_audio`'s 3-tuple result to `score`, line 101 appends it to
`similarities` unmodified, and line 131 formats `score` with `:.3f`.  The
frozen-stream check in between (lines 107-128) touches neither.  Returns
the history as stored at that point together with the outcome of the
format — `typeError` means `run` terminates there, since the enclosing
loop only handles `KeyboardInterrupt` (line 161). -/
def runCycleAfterCompare (similarities : List PyVal) (sim off conf : ℚ) :
    List PyVal × PyResult Unit :=
  let score := PyVal.tup (sim, off, conf)
  let similarities := similarities ++ [score]
  (similarities, pyFormatFixed3 score)

/-! ### Offset estimation (compare.py, `detect_time_offset`) -/

/-- One point of `scipy.signal.correlate(a, b, mode='full')`:
`full[k] = Σ_n a[n] * b[n - (k - (len(b) - 1))]` for
`k = 0 .. len(a)+len(b)-2` (out-of-range factors contribute 0). -/
def corrAt (a b : List ℚ) (k : ℕ) : ℚ :=
  ((List.range a.length).map (fun (n : ℕ) =>
    let j : ℤ := (n : ℤ) - (k : ℤ) + ((b.length : ℤ) - 1)
    if 0 ≤ j ∧ j < (b.length : ℤ) then a.getD n 0 * b.getD j.toNat 0 else 0)).sum

/-- `scipy.signal.correlate(a, b, mode='full')` as a list of length
`len(a)+len(b)-1`. -/
def correlateFull (a b : List ℚ) : List ℚ :=
  (List.range (a.length + b.length - 1)).map (corrAt a b)

/-- `scipy.signal.correlate(a, b, mode='same')` (compare.py line 70): the
centered `len(a)` elements of the full correlation, i.e. the slice starting
at `(len(b) - 1) // 2`. -/
def correlateSame (a b : List ℚ) : List ℚ :=
  ((correlateFull a b).drop ((b.length - 1) / 2)).take a.length

/-- Maximum of a list of rationals (0 on the empty list, which the code never
reaches). -/
def maxListQ : List ℚ → ℚ
  | [] => 0
  | [x] => x
  | x :: y :: rest => max x (maxListQ (y :: rest))

/-- `np.argmax` (compare.py line 73): index of the first occurrence of the
maximum (signed) value. -/
def argmaxQ : List ℚ → ℕ
  | [] => 0
  | [_] => 0
  | x :: y :: rest => if maxListQ (y :: rest) ≤ x then 0 else argmaxQ (y :: rest) + 1

/-- `np.max(np.abs(l))` (compare.py line 82). -/
def maxAbsQ (l : List ℚ) : ℚ := maxListQ (l.map abs)

/-- Peak location and confidence of `detect_time_offset` (compare.py lines
70-92), starting from the padded, normalized onset envelopes: cross-correlate
in `same` mode, take `np.argmax`, convert the distance from the center index
`len(correlation) // 2` to seconds with `hop_length = 512` and `sr1 = 16000`,
and report `abs(correlation[max_idx]) / max(np.abs(correlation))` (0 when the
curve is identically 0), clamped to [0, 1]. -/
def correlatePeak (onset1 onset2 : List ℚ) : ℚ × ℚ :=
  let correlation := correlateSame onset1 onset2
  let max_idx := argmaxQ correlation
  let center := correlation.length / 2
  let offset_frames : ℤ := (max_idx : ℤ) - (center : ℤ)
  let offset_seconds : ℚ := (offset_frames : ℚ) * 512 / 16000
  let max_corr := maxAbsQ correlation
  let confidence : ℚ := if 0 < max_corr then |correlation.getD max_idx 0| / max_corr else 0
  (offset_seconds, min (max confidence 0) 1)

/-- `np.mean` of a list of rationals. -/
def pyMean (l : List ℚ) : ℚ := l.sum / (l.length : ℚ)

/-- The variance `np.std(l) ** 2` of a list of rationals (population
variance, denominator `len(l)`). -/
def pyVariance (l : List ℚ) : ℚ :=
  ((l.map (fun x => (x - pyMean l) ^ 2)).sum) / (l.length : ℚ)

/-- `np.pad(l, (0, n - len(l)), mode='constant')` (compare.py lines 60-61). -/
def padEnd (n : ℕ) (l : List ℚ) : List ℚ := l ++ List.replicate (n - l.length) 0

/-- Normalization step of `detect_time_offset` (compare.py lines 64-67):
`if np.std(onset) > 0: onset = (onset - mean) / std` — the step is skipped
exactly when the variance is 0.  `np.std` is the square root of the
variance, which is irrational in general, so the embedding receives the
standard-deviation function `stdF` as a parameter; `np.std e > 0` holds iff
`pyVariance e > 0`. -/
def normalizeEnv (stdF : List ℚ → ℚ) (e : List ℚ) : List ℚ :=
  if 0 < pyVariance e then e.map (fun x => (x - pyMean e) / stdF e) else e

/-- `detect_time_offset` (compare.py lines 31-96) on already-loaded sample
buffers: empty input on either side returns `(0, 0.0)` before any analysis;
otherwise the onset envelopes (`librosa.onset.onset_strength`, abstracted as
the parameter `onsetF`) are padded to a common length, normalized, and fed
to the cross-correlation peak search. -/
def detect_time_offset (onsetF : List ℚ → List ℚ) (stdF : List ℚ → ℚ)
    (y1 y2 : List ℚ) : ℚ × ℚ :=
  if y1.length = 0 ∨ y2.length = 0 then (0, 0)
  else
    let onset1 := onsetF y1
    let onset2 := onsetF y2
    let max_len := max onset1.length onset2.length
    let onset1 := padEnd max_len onset1
    let onset2 := padEnd max_len onset2
    let onset1 := normalizeEnv stdF onset1
    let onset2 := normalizeEnv stdF onset2
    correlatePeak onset1 onset2

/-! ### Alignment data flow for a negative offset (compare.py) -/

/-- The temporary files produced on the `offset_seconds < 0` path, with
buffers modelled at one-second granularity (`ffmpeg -ss t` drops `t` seconds,
`-t 20` keeps 20 seconds). -/
structure NegAlignFiles (α : Type) where
  ref_trimmed : List α
  aligned1 : List α
  aligned2 : List α
  file1_to_compare : List α
  file2_to_compare : List α

/-- Data flow of `compare_audio` + `align_audio_files` when
`offset_seconds < -1.0` (compare.py lines 128-155 and 204-220), for an
offset of magnitude `offMagSec` whole seconds:
`align_audio_files` writes `temp/ref_trimmed.wav` from `file1` trimmed by the
offset (`cmd_trim`, lines 134-144) and then writes its `output_file`
(`temp/aligned1.wav`) from `file2` truncated to 20 s (`cmd`, lines 147-155);
`compare_audio` sets `file1_to_compare = temp/aligned1.wav`, writes
`temp/aligned2.wav` from `file2` truncated to 20 s (lines 209-218), and sets
`file2_to_compare = temp/aligned2.wav`.  The trimmed copy of `file1` in
`temp/ref_trimmed.wav` is never read again. -/
def negativeOffsetCompareSetup {α : Type} (file1 file2 : List α) (offMagSec : ℕ) :
    NegAlignFiles α :=
  { ref_trimmed := (file1.drop offMagSec).take 20
    aligned1 := file2.take 20
    aligned2 := file2.take 20
    file1_to_compare := file2.take 20
    file2_to_compare := file2.take 20 }

/-! ### Helper lemmas -/

theorem countEq_le_left (a b : List Char) : countEq a b ≤ a.length := by
  calc ((a.zip b).filter (fun p => decide (p.1 = p.2))).length
      ≤ (a.zip b).length := List.length_filter_le _ _
    _ = min a.length b.length := List.length_zip _ _
    _ ≤ a.length := min_le_left _ _

theorem countEq_self (l : List Char) : countEq l l = l.length := by
  induction l with
  | nil => rfl
  | cons c t ih =>
    simp only [countEq, List.zip_cons_cons, List.filter_cons, decide_eq_true_eq] at *
    simp [ih]

theorem pyLjust_length (s : List Char) (n : ℕ) (c : Char) :
    (pyLjust s n c).length = max s.length n := by
  simp [pyLjust, List.length_append, List.length_replicate]
  omega

/-- Both bounds of the character-level similarity. -/
theorem fingerprintCharSimilarity_mem01 (fp1 fp2 : List Char) :
    0 ≤ fingerprintCharSimilarity fp1 fp2 ∧ fingerprintCharSimilarity fp1 fp2 ≤ 1 := by
  unfold fingerprintCharSimilarity
  by_cases h : max fp1.length fp2.length = 0
  · simp [h]
  · simp only [h, if_false]
    have hpos : (0 : ℚ) < ((max fp1.length fp2.length : ℕ) : ℚ) :=
      Nat.cast_pos.mpr (Nat.pos_of_ne_zero h)
    constructor
    · positivity
    · rw [div_le_one hpos]
      have hle : countEq (pyLjust fp1 (max fp1.length fp2.length) '0')
          (pyLjust fp2 (max fp1.length fp2.length) '0') ≤ max fp1.length fp2.length := by
        calc countEq _ _ ≤ (pyLjust fp1 (max fp1.length fp2.length) '0').length :=
              countEq_le_left _ _
          _ = max fp1.length (max fp1.length fp2.length) := pyLjust_length _ _ _
          _ = max fp1.length fp2.length := by omega
      exact_mod_cast hle

theorem hammingStep_bounds (arr1 arr2 : List ℤ) (offset : ℤ) (acc : ℚ)
    (h0 : 0 ≤ acc) (h1 : acc ≤ 1) :
    0 ≤ hammingStep arr1 arr2 acc offset ∧ hammingStep arr1 arr2 acc offset ≤ 1 := by
  unfold hammingStep
  dsimp only
  split
  · next hlen =>
    refine ⟨le_trans h0 (le_max_left _ _), max_le h1 ?_⟩
    have hlenpos : (0 : ℚ) < ((hammingWindowPair arr1 arr2 offset).1.length : ℚ) :=
      Nat.cast_pos.mpr hlen.1
    rw [div_le_one hlenpos]
    have hb : (((hammingWindowPair arr1 arr2 offset).1.zip
        (hammingWindowPair arr1 arr2 offset).2).filter
        (fun xy => decide (pyBitDiff xy.1 xy.2 ≤ 16))).length ≤
        (hammingWindowPair arr1 arr2 offset).1.length := by
      calc (((hammingWindowPair arr1 arr2 offset).1.zip
            (hammingWindowPair arr1 arr2 offset).2).filter _).length
          ≤ ((hammingWindowPair arr1 arr2 offset).1.zip
            (hammingWindowPair arr1 arr2 offset).2).length := List.length_filter_le _ _
        _ = min (hammingWindowPair arr1 arr2 offset).1.length
            (hammingWindowPair arr1 arr2 offset).2.length := List.length_zip _ _
        _ ≤ (hammingWindowPair arr1 arr2 offset).1.length := min_le_left _ _
    exact_mod_cast hb
  · exact ⟨h0, h1⟩

theorem foldl_hammingStep_bounds (arr1 arr2 : List ℤ) (offs : List ℤ) :
    ∀ acc : ℚ, 0 ≤ acc → acc ≤ 1 →
      0 ≤ offs.foldl (hammingStep arr1 arr2) acc ∧
      offs.foldl (hammingStep arr1 arr2) acc ≤ 1 := by
  induction offs with
  | nil => intro acc h0 h1; exact ⟨h0, h1⟩
  | cons o rest ih =>
    intro acc h0 h1
    have hs := hammingStep_bounds arr1 arr2 o acc h0 h1
    exact ih _ hs.1 hs.2

/-- Both bounds of the sliding-window Hamming similarity. -/
theorem slidingHammingMax_mem01 (arr1 arr2 : List ℤ) :
    0 ≤ slidingHammingMax arr1 arr2 ∧ slidingHammingMax arr1 arr2 ≤ 1 :=
  foldl_hammingStep_bounds arr1 arr2 _ 0 le_rfl (by norm_num)

theorem hammingResult?_some (fp1 fp2 : List Char) (m : ℚ)
    (h : hammingResult? fp1 fp2 = some m) :
    1/2 < m ∧ m ≤ 1 := by
  unfold hammingResult? at h
  cases h1 : parseFingerprint fp1 with
  | none => rw [h1] at h; simp at h
  | some arr1 =>
    cases h2 : parseFingerprint fp2 with
    | none => rw [h1, h2] at h; simp at h
    | some arr2 =>
      rw [h1, h2] at h
      dsimp only at h
      by_cases hs : 1/2 < slidingHammingMax arr1 arr2
      · rw [if_pos hs] at h
        have hm : slidingHammingMax arr1 arr2 = m := Option.some.inj h
        rw [hm] at hs
        exact ⟨hs, hm ▸ (slidingHammingMax_mem01 arr1 arr2).2⟩
      · rw [if_neg hs] at h
        simp at h

theorem checkFingerprintOverlap_mem01 (fp1 fp2 : List Char) :
    0 ≤ checkFingerprintOverlap fp1 fp2 ∧ checkFingerprintOverlap fp1 fp2 ≤ 1 := by
  unfold checkFingerprintOverlap
  dsimp only
  split_ifs with h1 h2
  · norm_num
  · norm_num
  · constructor
    · apply le_min _ (by norm_num)
      apply div_nonneg _ (Nat.cast_nonneg _)
      apply List.sum_nonneg
      intro x hx
      simp only [List.mem_map] at hx
      obtain ⟨i, _, hi⟩ := hx
      subst hi
      apply List.sum_nonneg
      intro y hy
      simp only [List.mem_map] at hy
      obtain ⟨j, _, hj⟩ := hy
      subst hj
      split_ifs <;> positivity
    · exact min_le_right _ _

/-! ### C1 -/

/-- C1 as stated is false: the fingerprint `"5,5,5,5"` (the comma-separated
text of the hash sequence `[5,5,5,5]`) has 7 characters, so the length guard
of `_compare_fingerprints_smart` returns 0.0 before the exact-match check;
the scorer does not return 1.0 on this pair of identical fingerprints. -/
theorem C1_counterexample :
    compareFingerprintsSmart "5,5,5,5".toList "5,5,5,5".toList = 0 ∧
    ¬ compareFingerprintsSmart "5,5,5,5".toList "5,5,5,5".toList = 1 := by
  have h : compareFingerprintsSmart "5,5,5,5".toList "5,5,5,5".toList = 0 := by decide
  exact ⟨h, by rw [h]; norm_num⟩

/-- C1 (amended): for every fingerprint of at least 10 characters, comparing
it with itself short-circuits on the exact-match strategy and returns 1.0;
fingerprints shorter than 10 characters (such as `"5,5,5,5"`) are rejected by
the guard and score 0.0 against themselves. -/
theorem C1_score_self_eq_one (fp : List Char) (h : 10 ≤ fp.length) :
    compareFingerprintsSmart fp fp = 1 := by
  have h1 : ¬ fp = [] := by
    intro hc; subst hc; simp at h
  have h2 : ¬ fp.length < 10 := by omega
  simp [compareFingerprintsSmart, h1, h2]

/-- Witness for C1: a concrete 11-character fingerprint scores 1.0 against
itself. -/
theorem C1_witness :
    10 ≤ "5,5,5,5,5,5".toList.length ∧
    compareFingerprintsSmart "5,5,5,5,5,5".toList "5,5,5,5,5,5".toList = 1 :=
  ⟨by decide, C1_score_self_eq_one "5,5,5,5,5,5".toList (by decide)⟩

/-! ### C9 -/

/-- C9: whenever either fingerprint is empty or shorter than 10 characters,
`_compare_fingerprints_smart` returns 0.0, before any comparison strategy —
in particular even when the two fingerprints are identical. -/
theorem C9_short_fingerprints_score_zero (fp1 fp2 : List Char)
    (h : fp1 = [] ∨ fp2 = [] ∨ fp1.length < 10 ∨ fp2.length < 10) :
    compareFingerprintsSmart fp1 fp2 = 0 := by
  simp [compareFingerprintsSmart, h]

/-- Witness for C9: the identical 5-character fingerprints `"1,2,3"` score
0.0. -/
theorem C9_witness :
    ("1,2,3".toList = [] ∨ "1,2,3".toList = [] ∨ "1,2,3".toList.length < 10 ∨
      "1,2,3".toList.length < 10) ∧
    compareFingerprintsSmart "1,2,3".toList "1,2,3".toList = 0 :=
  ⟨by decide, C9_short_fingerprints_score_zero "1,2,3".toList "1,2,3".toList (by decide)⟩

/-! ### C10 -/

/-- C10 as stated is false at the empty fingerprint with `k = 0`: there
`max_len = 0` and `_fingerprint_char_similarity` returns 0.0, not 1.0. -/
theorem C10_counterexample :
    fingerprintCharSimilarity [] ([] ++ List.replicate 0 '0') = 0 ∧
    ¬ fingerprintCharSimilarity [] ([] ++ List.replicate 0 '0') = 1 := by
  have h : fingerprintCharSimilarity [] ([] ++ List.replicate 0 '0') = 0 := by decide
  exact ⟨h, by rw [h]; norm_num⟩

/-- C10 (amended): unless both the fingerprint and the extension are empty,
padding with the character `'0'` makes a fingerprint and its extension by
`k` zeros score 1.0 under the character-level similarity. -/
theorem C10_zero_padding_inflates (fp : List Char) (k : ℕ) (h : fp.length + k ≠ 0) :
    fingerprintCharSimilarity fp (fp ++ List.replicate k '0') = 1 := by
  have hlen : (fp ++ List.replicate k '0').length = fp.length + k := by simp
  have hmax : max fp.length (fp ++ List.replicate k '0').length = fp.length + k := by
    rw [hlen]; omega
  have hpad1 : pyLjust fp (fp.length + k) '0' = fp ++ List.replicate k '0' := by
    simp [pyLjust]
  have hpad2 : pyLjust (fp ++ List.replicate k '0') (fp.length + k) '0' =
      fp ++ List.replicate k '0' := by
    simp [pyLjust, hlen]
  unfold fingerprintCharSimilarity
  rw [hmax, if_neg h, hpad1, hpad2, countEq_self, hlen]
  have : ((fp.length + k : ℕ) : ℚ) ≠ 0 := by exact_mod_cast h
  exact div_self this

/-- Witness for C10: `"a"` against `"a00"` scores 1.0. -/
theorem C10_witness :
    "a".toList.length + 2 ≠ 0 ∧
    fingerprintCharSimilarity "a".toList ("a".toList ++ List.replicate 2 '0') = 1 :=
  ⟨by decide, C10_zero_padding_inflates "a".toList 2 (by decide)⟩

/-! ### C7 -/

/-- C7: for all fingerprint inputs, including empty ones, the similarity
scorer returns a value in [0, 1]; each strategy (exact match, sliding-window
Hamming, chunk overlap, character similarity) is individually bounded. -/
theorem C7_score_in_unit_interval (fp1 fp2 : List Char) :
    0 ≤ compareFingerprintsSmart fp1 fp2 ∧ compareFingerprintsSmart fp1 fp2 ≤ 1 := by
  unfold compareFingerprintsSmart
  split_ifs with hguard heq
  · norm_num
  · norm_num
  · cases hh : hammingResult? fp1 fp2 with
    | some m =>
      simp only [hh]
      have := hammingResult?_some fp1 fp2 m hh
      constructor
      · linarith [this.1]
      · exact this.2
    | none =>
      simp only [hh]
      split_ifs with hov
      · exact checkFingerprintOverlap_mem01 fp1 fp2
      · exact fingerprintCharSimilarity_mem01 fp1 fp2

/-! ### C4 -/

/-- C4: the scorer is an ordered fallback chain and the result is the score
of the first accepted strategy, never a blend: for usable inputs exactly one
of the four implemented strategies determines the score — exact match
(score 1), accepted sliding-window Hamming (score above its 0.5 threshold),
accepted chunk overlap (score above its 0.3 threshold), or the final
character-level similarity.  (The native-compare step of the specification
is conditional on the hashing capability exposing a direct compare
operation; `fpcalc` exposes none and `_compare_fingerprints_smart` contains
no such invocation, so that step never fires.) -/
theorem C4_first_accepted_strategy_wins (fp1 fp2 : List Char)
    (h1 : ¬ (fp1 = [] ∨ fp2 = [] ∨ fp1.length < 10 ∨ fp2.length < 10)) :
    (fp1 = fp2 ∧ compareFingerprintsSmart fp1 fp2 = 1)
    ∨ (fp1 ≠ fp2 ∧ ∃ m, hammingResult? fp1 fp2 = some m ∧ 1/2 < m ∧
        compareFingerprintsSmart fp1 fp2 = m)
    ∨ (fp1 ≠ fp2 ∧ hammingResult? fp1 fp2 = none ∧
        3/10 < checkFingerprintOverlap fp1 fp2 ∧
        compareFingerprintsSmart fp1 fp2 = checkFingerprintOverlap fp1 fp2)
    ∨ (fp1 ≠ fp2 ∧ hammingResult? fp1 fp2 = none ∧
        checkFingerprintOverlap fp1 fp2 ≤ 3/10 ∧
        compareFingerprintsSmart fp1 fp2 = fingerprintCharSimilarity fp1 fp2) := by
  have hne1 : ¬ fp1 = [] := fun hc => h1 (Or.inl hc)
  have hne2 : ¬ fp2 = [] := fun hc => h1 (Or.inr (Or.inl hc))
  have hl1 : ¬ fp1.length < 10 := fun hc => h1 (Or.inr (Or.inr (Or.inl hc)))
  have hl2 : ¬ fp2.length < 10 := fun hc => h1 (Or.inr (Or.inr (Or.inr hc)))
  by_cases heq : fp1 = fp2
  · left
    refine ⟨heq, ?_⟩
    simp [compareFingerprintsSmart, hne1, hne2, hl1, hl2, heq]
  · cases hh : hammingResult? fp1 fp2 with
    | some m =>
      right; left
      refine ⟨heq, m, rfl, (hammingResult?_some fp1 fp2 m hh).1, ?_⟩
      simp [compareFingerprintsSmart, hne1, hne2, hl1, hl2, heq, hh]
    | none =>
      by_cases hov : 3/10 < checkFingerprintOverlap fp1 fp2
      · right; right; left
        refine ⟨heq, rfl, hov, ?_⟩
        simp [compareFingerprintsSmart, hne1, hne2, hl1, hl2, heq, hh, hov]
      · right; right; right
        refine ⟨heq, rfl, le_of_not_lt hov, ?_⟩
        simp [compareFingerprintsSmart, hne1, hne2, hl1, hl2, heq, hh, hov]

/-- Witness for C4: two distinct opaque 10-character fingerprints fall all
the way through to the character-level strategy. -/
theorem C4_witness :
    ¬ ("aaaaaaaaaa".toList = [] ∨ "bbbbbbbbbb".toList = [] ∨
       "aaaaaaaaaa".toList.length < 10 ∨ "bbbbbbbbbb".toList.length < 10) ∧
    (("aaaaaaaaaa".toList = "bbbbbbbbbb".toList ∧
        compareFingerprintsSmart "aaaaaaaaaa".toList "bbbbbbbbbb".toList = 1)
     ∨ ("aaaaaaaaaa".toList ≠ "bbbbbbbbbb".toList ∧ ∃ m,
          hammingResult? "aaaaaaaaaa".toList "bbbbbbbbbb".toList = some m ∧ 1/2 < m ∧
          compareFingerprintsSmart "aaaaaaaaaa".toList "bbbbbbbbbb".toList = m)
     ∨ ("aaaaaaaaaa".toList ≠ "bbbbbbbbbb".toList ∧
          hammingResult? "aaaaaaaaaa".toList "bbbbbbbbbb".toList = none ∧
          3/10 < checkFingerprintOverlap "aaaaaaaaaa".toList "bbbbbbbbbb".toList ∧
          compareFingerprintsSmart "aaaaaaaaaa".toList "bbbbbbbbbb".toList =
            checkFingerprintOverlap "aaaaaaaaaa".toList "bbbbbbbbbb".toList)
     ∨ ("aaaaaaaaaa".toList ≠ "bbbbbbbbbb".toList ∧
          hammingResult? "aaaaaaaaaa".toList "bbbbbbbbbb".toList = none ∧
          checkFingerprintOverlap "aaaaaaaaaa".toList "bbbbbbbbbb".toList ≤ 3/10 ∧
          compareFingerprintsSmart "aaaaaaaaaa".toList "bbbbbbbbbb".toList =
            fingerprintCharSimilarity "aaaaaaaaaa".toList "bbbbbbbbbb".toList)) :=
  ⟨by decide, C4_first_accepted_strategy_wins "aaaaaaaaaa".toList "bbbbbbbbbb".toList (by decide)⟩

/-! ### C3 -/

/-- C3 names the right rule but the program never derives any Verdict:
`compare_audio` returns a 3-tuple and `run` stores it unmodified, so the
first successful cycle terminates `run` with an uncaught `TypeError` while
formatting the tuple score (main.py line 131) — the aggregation block can
never come to hold 5 results — and on such tuple entries the block's own
`sum` and threshold comparison would raise `TypeError` themselves instead
of producing SAME.  A numeric score would have formatted fine, pinpointing
the missing unpacking as the slip.  Evaluated at the claim's scenario: the
first cycle with similarity 0.9 stores one tuple and dies, and the
aggregation block on five tuples carrying [0.9, 0.9, 0.2, 0.9, 0.9]
raises instead of returning SAME. -/
theorem C3_no_verdict_is_derived :
    runCycleAfterCompare [] (9/10) 0 1 =
      ([PyVal.tup (9/10, 0, 1)], PyResult.typeError) ∧
    pyFormatFixed3 (PyVal.num (9/10)) = PyResult.ok () ∧
    aggregateBlock
      [PyVal.tup (9/10, 0, 1), PyVal.tup (9/10, 0, 1), PyVal.tup (2/10, 0, 1),
       PyVal.tup (9/10, 0, 1), PyVal.tup (9/10, 0, 1)] = some PyResult.typeError ∧
    (some PyResult.typeError : Option (PyResult Verdict)) ≠ some (PyResult.ok Verdict.SAME) := by
  refine ⟨rfl, rfl, rfl, ?_⟩
  decide

/-! ### C6 -/

/-- C6 describes a bounded, evicting history, but the code has neither:
its only history update is a plain append of `compare_audio`'s raw 3-tuple
(no eviction logic exists anywhere in `run`), and every successful cycle
terminates `run` with an uncaught `TypeError` while formatting that tuple,
so across a run the stored sequence never even reaches a second entry —
far from the capacity `N = 5` at which the claimed eviction would have to
fire.  Evaluated at the first successful cycle: the history at the point
of death holds exactly the one tuple entry. -/
theorem C6_history_never_reaches_capacity :
    (∀ (hist : List PyVal) (sim off conf : ℚ),
      runCycleAfterCompare hist sim off conf =
        (hist ++ [PyVal.tup (sim, off, conf)], PyResult.typeError)) ∧
    (runCycleAfterCompare [] (9/10) 0 1).1.length = 1 :=
  ⟨fun _ _ _ _ => rfl, rfl⟩

/-! ### C8 -/

/-- C8: an empty buffer on either side makes `detect_time_offset` return
`(0, 0.0)` immediately (for every envelope extractor and standard-deviation
function), and a degenerate envelope with zero variance skips the
normalization step unchanged, so no division by a zero standard deviation is
performed. -/
theorem C8_empty_buffer_returns_zero (onsetF : List ℚ → List ℚ) (stdF : List ℚ → ℚ) :
    (∀ y1 y2 : List ℚ, y1 = [] ∨ y2 = [] →
      detect_time_offset onsetF stdF y1 y2 = (0, 0)) ∧
    (∀ e : List ℚ, pyVariance e = 0 → normalizeEnv stdF e = e) := by
  constructor
  · intro y1 y2 h
    have hlen : y1.length = 0 ∨ y2.length = 0 := by
      rcases h with h | h <;> [left; right] <;> simp [h]
    unfold detect_time_offset
    rw [if_pos hlen]
  · intro e h
    unfold normalizeEnv
    rw [if_neg]
    rw [h]
    exact lt_irrefl 0

/-- Witness for C8: the empty first buffer gives `(0, 0.0)`, and the
constant envelope `[2, 2]` is left unchanged by normalization. -/
theorem C8_witness :
    detect_time_offset id (fun _ => 1) [] [1] = (0, 0) ∧
    normalizeEnv (fun _ => 1) [2, 2] = [2, 2] :=
  ⟨(C8_empty_buffer_returns_zero id (fun _ => 1)).1 [] [1] (Or.inl rfl),
   (C8_empty_buffer_returns_zero id (fun _ => 1)).2 [2, 2] (by
      norm_num [pyVariance, pyMean])⟩

/-! ### C5 -/

theorem maxListQ_ge (l : List ℚ) : ∀ i, i < l.length → l.getD i 0 ≤ maxListQ l := by
  induction l with
  | nil => intro i hi; simp at hi
  | cons x t ih =>
    cases t with
    | nil =>
      intro i hi
      have h0 : i = 0 := by simp at hi; omega
      subst h0
      simp [maxListQ]
    | cons y rest =>
      intro i hi
      cases i with
      | zero =>
        simp only [List.getD_cons_zero, maxListQ]
        exact le_max_left _ _
      | succ j =>
        have hj : j < (y :: rest).length := by
          simpa using hi
        calc (x :: y :: rest).getD (j + 1) 0 = (y :: rest).getD j 0 := by
              simp [List.getD_cons_succ]
          _ ≤ maxListQ (y :: rest) := ih j hj
          _ ≤ max x (maxListQ (y :: rest)) := le_max_right _ _

theorem argmaxQ_lt_length (l : List ℚ) (h : l ≠ []) : argmaxQ l < l.length := by
  induction l with
  | nil => exact absurd rfl h
  | cons x t ih =>
    cases t with
    | nil => simp [argmaxQ]
    | cons y rest =>
      by_cases hc : maxListQ (y :: rest) ≤ x
      · simp [argmaxQ, hc]
      · have h2 := ih (List.cons_ne_nil y rest)
        simp only [argmaxQ, if_neg hc, List.length_cons] at h2 ⊢
        omega

theorem getD_argmaxQ (l : List ℚ) (h : l ≠ []) : l.getD (argmaxQ l) 0 = maxListQ l := by
  induction l with
  | nil => exact absurd rfl h
  | cons x t ih =>
    cases t with
    | nil => simp [argmaxQ, maxListQ]
    | cons y rest =>
      by_cases hc : maxListQ (y :: rest) ≤ x
      · simp only [argmaxQ, if_pos hc, List.getD_cons_zero, maxListQ]
        exact (max_eq_left hc).symm
      · have h2 := ih (List.cons_ne_nil y rest)
        simp only [argmaxQ, if_neg hc, List.getD_cons_succ, maxListQ]
        rw [h2]
        exact (max_eq_right (le_of_lt (lt_of_not_le hc))).symm

theorem argmaxQ_first (l : List ℚ) : ∀ j, j < argmaxQ l → l.getD j 0 < maxListQ l := by
  induction l with
  | nil => intro j hj; simp [argmaxQ] at hj
  | cons x t ih =>
    cases t with
    | nil => intro j hj; simp [argmaxQ] at hj
    | cons y rest =>
      intro j hj
      by_cases hc : maxListQ (y :: rest) ≤ x
      · simp only [argmaxQ, if_pos hc] at hj
        omega
      · simp only [argmaxQ, if_neg hc] at hj
        have hmax : maxListQ (x :: y :: rest) = maxListQ (y :: rest) := by
          simp only [maxListQ]
          exact max_eq_right (le_of_lt (lt_of_not_le hc))
        cases j with
        | zero =>
          rw [hmax, List.getD_cons_zero]
          exact lt_of_not_le hc
        | succ i =>
          rw [hmax, List.getD_cons_succ]
          exact ih i (by omega)

theorem correlateSame_length (o1 o2 : List ℚ) (hlen : o1.length = o2.length)
    (hne : 0 < o1.length) : (correlateSame o1 o2).length = o1.length := by
  have hfull : (correlateFull o1 o2).length = o1.length + o2.length - 1 := by
    simp [correlateFull]
  simp only [correlateSame, List.length_take, List.length_drop, hfull]
  omega

/-- What the peak-location stage of `detect_time_offset` actually does on the
padded, normalized onset envelopes (the amended C5): the chosen index is the
first index of the maximum signed value of the `same`-mode cross-correlation
curve (not the maximum magnitude), the offset is that index's distance from
the center index `len // 2` converted to seconds with hop 512 at 16000 Hz,
and the confidence is the absolute correlation value at that signed-maximum
index divided by the maximum absolute value over the curve (0 when the curve
is identically zero), clamped to [0, 1]. -/
def peakSpec (onset1 onset2 : List ℚ) : Prop :=
  (correlateSame onset1 onset2).length = onset1.length ∧
  argmaxQ (correlateSame onset1 onset2) < (correlateSame onset1 onset2).length ∧
  (∀ j, j < (correlateSame onset1 onset2).length →
    (correlateSame onset1 onset2).getD j 0 ≤
      (correlateSame onset1 onset2).getD (argmaxQ (correlateSame onset1 onset2)) 0) ∧
  (∀ j, j < argmaxQ (correlateSame onset1 onset2) →
    (correlateSame onset1 onset2).getD j 0 <
      (correlateSame onset1 onset2).getD (argmaxQ (correlateSame onset1 onset2)) 0) ∧
  correlatePeak onset1 onset2 =
    (((((argmaxQ (correlateSame onset1 onset2) : ℤ) -
        (((correlateSame onset1 onset2).length / 2 : ℕ) : ℤ)) : ℤ) : ℚ) * 512 / 16000,
     min (max (if 0 < maxAbsQ (correlateSame onset1 onset2) then
          |(correlateSame onset1 onset2).getD (argmaxQ (correlateSame onset1 onset2)) 0| /
            maxAbsQ (correlateSame onset1 onset2)
        else 0) 0) 1)

/-- C5 (amended): on equal-length nonempty normalized envelopes the offset
estimator picks the first index of the maximum signed correlation value —
not the maximum magnitude — and reports the confidence relative to the
maximum absolute value of the whole curve, clamped to [0, 1]. -/
theorem C5_peak_is_signed_argmax (onset1 onset2 : List ℚ)
    (hlen : onset1.length = onset2.length) (hne : 0 < onset1.length) :
    peakSpec onset1 onset2 := by
  have hclen := correlateSame_length onset1 onset2 hlen hne
  have hcne : correlateSame onset1 onset2 ≠ [] :=
    List.ne_nil_of_length_pos (by rw [hclen]; exact hne)
  refine ⟨hclen, argmaxQ_lt_length _ hcne, ?_, ?_, rfl⟩
  · intro j hj
    rw [getD_argmaxQ _ hcne]
    exact maxListQ_ge _ j hj
  · intro j hj
    rw [getD_argmaxQ _ hcne]
    exact argmaxQ_first _ j hj

/-- Witness for C5's amended theorem at a concrete envelope pair. -/
theorem C5_witness :
    ([1, 0, 0] : List ℚ).length = ([0, 1, 0] : List ℚ).length ∧
    0 < ([1, 0, 0] : List ℚ).length ∧
    peakSpec [1, 0, 0] [0, 1, 0] :=
  ⟨rfl, by norm_num, C5_peak_is_signed_argmax [1, 0, 0] [0, 1, 0] rfl (by norm_num)⟩

/-- C5 as stated is false: for the zero-mean unit-variance envelopes
`u = [5/3, −1, −1/3, −1/3]` and `v = −u`, the `same`-mode correlation curve
is `[2/9, 11/9, −4, 11/9]`, whose maximum-magnitude point is the value −4 at
index 2 — exactly the center index, so the claim's rule would report offset
0 s with confidence 4/4 = 1.  The code instead takes `np.argmax`, the
maximum signed value 11/9 at index 1, and returns offset
`(1 − 2) · 512 / 16000 = −4/125` s with confidence `(11/9)/4 = 11/36`. -/
theorem C5_counterexample :
    correlateSame [5/3, -1, -1/3, -1/3] [-5/3, 1, 1/3, 1/3] = [2/9, 11/9, -4, 11/9] ∧
    |(2 : ℚ)/9| < |(-4 : ℚ)| ∧ |(11 : ℚ)/9| < |(-4 : ℚ)| ∧
    correlatePeak [5/3, -1, -1/3, -1/3] [-5/3, 1, 1/3, 1/3] = (-4/125, 11/36) ∧
    ((-4 : ℚ)/125, (11 : ℚ)/36) ≠ ((0 : ℚ), (1 : ℚ)) := by
  have hc : correlateSame [5/3, -1, -1/3, -1/3] [-5/3, 1, 1/3, 1/3]
      = [2/9, 11/9, -4, 11/9] := by
    norm_num [correlateSame, correlateFull, corrAt, List.range_succ,
      List.getD_cons_zero, List.getD_cons_succ, show ((2 : ℤ).toNat) = 2 from rfl,
      show ((3 : ℤ).toNat) = 3 from rfl]
  have habs1 : |(2 : ℚ)/9| = 2/9 := by norm_num
  have habs2 : |(11 : ℚ)/9| = 11/9 := by norm_num
  have habs3 : |(-4 : ℚ)| = 4 := by norm_num
  have harg : argmaxQ [2/9, 11/9, -4, 11/9] = 1 := by
    norm_num [argmaxQ, maxListQ, max_def]
  have hmax : maxAbsQ [2/9, 11/9, -4, 11/9] = 4 := by
    norm_num [maxAbsQ, maxListQ, max_def, habs1, habs2, habs3]
  refine ⟨hc, by rw [habs1, habs3]; norm_num, by rw [habs2, habs3]; norm_num, ?_, ?_⟩
  · simp only [correlatePeak]
    rw [hc, harg, hmax]
    norm_num [List.getD_cons_zero, List.getD_cons_succ, habs2, min_def, max_def]
  · intro h
    have h1 : (-4 : ℚ)/125 = 0 := congrArg Prod.fst h
    norm_num at h1

/-! ### C2 -/

/-- C2 is violated by the code (a slip contradicting the code's own
comments, which announce "we'll create a trimmed version of file1" and
"Comparing with file1 trimmed"): on the `offset_seconds < 0` path, the
trimmed copy of file1 is written to `temp/ref_trimmed.wav` and never used;
the buffer actually installed as `file1_to_compare` is the first 20 seconds
of *file2*, so the fingerprint comparison receives file2's window on both
sides.  Concretely, with file1 a 25-second ramp, file2 a distinct buffer and
an offset of −2 s, both compared buffers equal `take 20 file2` and the left
one differs from the claimed `take 20 (drop 2 file1)`. -/
theorem C2_negative_offset_compares_file2_with_itself :
    (negativeOffsetCompareSetup (List.range 25) ((List.range 25).map (· + 100))
        2).file1_to_compare = ((List.range 25).map (· + 100)).take 20 ∧
    (negativeOffsetCompareSetup (List.range 25) ((List.range 25).map (· + 100))
        2).file2_to_compare = ((List.range 25).map (· + 100)).take 20 ∧
    (negativeOffsetCompareSetup (List.range 25) ((List.range 25).map (· + 100))
        2).ref_trimmed = ((List.range 25).drop 2).take 20 ∧
    (negativeOffsetCompareSetup (List.range 25) ((List.range 25).map (· + 100))
        2).file1_to_compare ≠ ((List.range 25).drop 2).take 20 ∧
    (negativeOffsetCompareSetup (List.range 25) ((List.range 25).map (· + 100))
        2).file1_to_compare =
      (negativeOffsetCompareSetup (List.range 25) ((List.range 25).map (· + 100))
        2).file2_to_compare := by
  refine ⟨rfl, rfl, rfl, ?_, rfl⟩
  decide

end AudioCompare
